import Mathlib

/-!
Verification development for the todos-agent repository.

The definitions below are shallow embeddings of the Python source:
* `src/agent_lock.py` — the `AgentLock` guard (state machine with lazy timeouts),
* `src/task_processor.py` — change analysis, reschedule decision, priority gate, router,
* `src/google_calendar.py` — free-interval computation and activity-hours filtering.

Timestamps are modelled as integers (seconds for the lock, abstract ticks elsewhere);
Python `None` becomes `Option.none`; Python truthiness of a numeric field
(`if self._agent_start_time:`) is modelled by `truthyTime` (absent or zero is falsy).
-/

namespace TodosAgent

/-- State of the global `AgentLock` instance: the attributes set in
`AgentLock.__init__` of `src/agent_lock.py`. -/
structure AgentLockState where
  is_agent_working : Bool
  is_cooldown : Bool
  agent_start_time : Option Int
  cooldown_start_time : Option Int
  current_task_id : Option String
  timeout_seconds : Int
  cooldown_seconds : Int
deriving Repr, DecidableEq

/-- Initial state built by `AgentLock.__init__`: idle, no timestamps, default
timeout 300 s and cooldown 3 s. -/
def initLock : AgentLockState :=
  { is_agent_working := false
    is_cooldown := false
    agent_start_time := none
    cooldown_start_time := none
    current_task_id := none
    timeout_seconds := 300
    cooldown_seconds := 3 }

/-- Python truthiness of an optional numeric timestamp: `None` and `0` are falsy. -/
def truthyTime : Option Int → Bool
  | none => false
  | some t => decide (t ≠ 0)

/-- Final part of `AgentLock.acquire_agent_lock`: the unconditional acquisition
(lines 63-70 of `src/agent_lock.py`). -/
def acquireFinal (st : AgentLockState) (now : Int) (task_id : String) :
    Bool × AgentLockState :=
  (true,
    { st with
      is_agent_working := true
      is_cooldown := false
      agent_start_time := some now
      cooldown_start_time := none
      current_task_id := some task_id })

/-- Middle part of `AgentLock.acquire_agent_lock`: the `_is_agent_working`
check with its timeout safety valve (lines 51-61). -/
def acquireWorkingCheck (st : AgentLockState) (now : Int) (task_id : String) :
    Bool × AgentLockState :=
  if st.is_agent_working then
    if truthyTime st.agent_start_time ∧
        now - st.agent_start_time.getD 0 > st.timeout_seconds then
      acquireFinal
        { st with is_agent_working := false, is_cooldown := false, current_task_id := none }
        now task_id
    else (false, st)
  else acquireFinal st now task_id

/-- `AgentLock.acquire_agent_lock(task_id)` evaluated at time `now`:
first the cooldown check (lines 37-49), then the working check, then acquisition.
Returns the boolean result together with the updated state. -/
def acquire_agent_lock (st : AgentLockState) (now : Int) (task_id : String) :
    Bool × AgentLockState :=
  if st.is_cooldown then
    if truthyTime st.cooldown_start_time ∧
        now - st.cooldown_start_time.getD 0 > st.cooldown_seconds then
      acquireWorkingCheck
        { st with is_cooldown := false, cooldown_start_time := none, current_task_id := none }
        now task_id
    else (false, st)
  else acquireWorkingCheck st now task_id

/-- `AgentLock.release_agent_lock(task_id)` evaluated at time `now`
(lines 72-88): on a matching holder (or when not working) it moves to cooldown. -/
def release_agent_lock (st : AgentLockState) (now : Int) (task_id : String) :
    AgentLockState :=
  if st.current_task_id = some task_id ∨ st.is_agent_working = false then
    { st with is_agent_working := false, is_cooldown := true, cooldown_start_time := some now }
  else st

/-- `AgentLock.is_agent_working()` evaluated at time `now` (lines 90-110):
returns the answer and the possibly self-healed state. -/
def is_agent_working_query (st : AgentLockState) (now : Int) :
    Bool × AgentLockState :=
  if st.is_agent_working = true ∧ truthyTime st.agent_start_time ∧
      now - st.agent_start_time.getD 0 > st.timeout_seconds then
    (false, { st with is_agent_working := false, is_cooldown := false, current_task_id := none })
  else if st.is_cooldown = true ∧ truthyTime st.cooldown_start_time ∧
      now - st.cooldown_start_time.getD 0 > st.cooldown_seconds then
    (false, { st with is_cooldown := false, cooldown_start_time := none, current_task_id := none })
  else (st.is_agent_working || st.is_cooldown, st)

/-- Dictionary returned by `AgentLock.get_status()` (lines 112-130). -/
structure LockStatus where
  is_locked : Bool
  is_agent_working : Bool
  is_cooldown : Bool
  current_task_id : Option String
  agent_elapsed_seconds : Option Int
  cooldown_elapsed_seconds : Option Int
deriving Repr, DecidableEq

/-- `AgentLock.get_status()` evaluated at time `now`: a pure read of the stored
flags (the method performs no state update). -/
def get_status (st : AgentLockState) (now : Int) : LockStatus :=
  { is_locked := st.is_agent_working || st.is_cooldown
    is_agent_working := st.is_agent_working
    is_cooldown := st.is_cooldown
    current_task_id := st.current_task_id
    agent_elapsed_seconds :=
      if truthyTime st.agent_start_time then some (now - st.agent_start_time.getD 0) else none
    cooldown_elapsed_seconds :=
      if truthyTime st.cooldown_start_time then some (now - st.cooldown_start_time.getD 0) else none }

/-- One externally invokable operation on the lock. -/
inductive LockOp where
  | acquireOp (now : Int) (task_id : String)
  | releaseOp (now : Int) (task_id : String)
  | isWorkingOp (now : Int)
  | statusOp (now : Int)
deriving Repr

/-- Effect of one operation on the lock state (status reads do not mutate). -/
def applyLockOp (st : AgentLockState) : LockOp → AgentLockState
  | .acquireOp now tid => (acquire_agent_lock st now tid).2
  | .releaseOp now tid => release_agent_lock st now tid
  | .isWorkingOp now => (is_agent_working_query st now).2
  | .statusOp _ => st

/-- State after a sequence of operations run from the initial state. -/
def runLockOps (ops : List LockOp) : AgentLockState :=
  ops.foldl applyLockOp initLock

/-- Idle: neither working nor cooling down. -/
def lockIdle (st : AgentLockState) : Prop :=
  st.is_agent_working = false ∧ st.is_cooldown = false

/-- Working state. -/
def lockWorking (st : AgentLockState) : Prop :=
  st.is_agent_working = true ∧ st.is_cooldown = false

/-- Cooldown state. -/
def lockCooldown (st : AgentLockState) : Prop :=
  st.is_agent_working = false ∧ st.is_cooldown = true

/-- Exactly one of the three lock states holds. -/
def exactlyOneLockState (st : AgentLockState) : Prop :=
  (lockIdle st ∧ ¬ lockWorking st ∧ ¬ lockCooldown st) ∨
  (lockWorking st ∧ ¬ lockIdle st ∧ ¬ lockCooldown st) ∨
  (lockCooldown st ∧ ¬ lockIdle st ∧ ¬ lockWorking st)

/-- The two flags are never simultaneously set. -/
def exclusiveFlags (st : AgentLockState) : Prop :=
  ¬ (st.is_agent_working = true ∧ st.is_cooldown = true)

lemma exclusiveFlags_applyLockOp (st : AgentLockState) (op : LockOp)
    (h : exclusiveFlags st) : exclusiveFlags (applyLockOp st op) := by
  cases op with
  | acquireOp now tid =>
      simp only [applyLockOp, acquire_agent_lock, acquireWorkingCheck, acquireFinal]
      split_ifs <;> simp_all [exclusiveFlags]
  | releaseOp now tid =>
      simp only [applyLockOp, release_agent_lock]
      split_ifs <;> simp_all [exclusiveFlags]
  | isWorkingOp now =>
      simp only [applyLockOp, is_agent_working_query]
      split_ifs <;> simp_all [exclusiveFlags]
  | statusOp now => exact h

lemma exclusiveFlags_foldl (ops : List LockOp) (st : AgentLockState)
    (h : exclusiveFlags st) : exclusiveFlags (ops.foldl applyLockOp st) := by
  induction ops generalizing st with
  | nil => exact h
  | cons op rest ih => exact ih _ (exclusiveFlags_applyLockOp st op h)

lemma exclusiveFlags_exactlyOne (st : AgentLockState)
    (h : exclusiveFlags st) : exactlyOneLockState st := by
  rcases hw : st.is_agent_working <;> rcases hc : st.is_cooldown <;>
    simp_all [exclusiveFlags, exactlyOneLockState, lockIdle, lockWorking, lockCooldown]

/-- C8: for every sequence of guard operations starting from the initial state,
exactly one of the three states idle, working, cooldown holds: the working flag
and the cooldown flag are never both true, and every operation preserves this. -/
theorem lock_exactly_one_state (ops : List LockOp) :
    exactlyOneLockState (runLockOps ops) := by
  refine exclusiveFlags_exactlyOne _ (exclusiveFlags_foldl ops initLock ?_)
  intro h
  simp [initLock] at h

/-- Acquired state produced by a successful `acquire_agent_lock` at time `now`
for holder `tid`. -/
def acquiredState (st : AgentLockState) (now : Int) (tid : String) : AgentLockState :=
  { st with
    is_agent_working := true
    is_cooldown := false
    agent_start_time := some now
    cooldown_start_time := none
    current_task_id := some tid }

/-- C1: behaviour of `acquire_agent_lock`.  In the Cooldown state with elapsed
time below the cooldown duration it returns not-acquired and leaves the state
unchanged; once the cooldown is exceeded it transitions to Idle and succeeds.
In the Working state with elapsed time below the timeout it returns
not-acquired; once the timeout is exceeded it force-transitions to Idle and
succeeds without an intervening release.  On success it transitions to Working
and records the holder id and the start time. -/
theorem acquire_agent_lock_spec (st : AgentLockState) (now : Int) (tid : String) :
    (∀ c, st.is_agent_working = false → st.is_cooldown = true →
      st.cooldown_start_time = some c → 0 < c → now - c < st.cooldown_seconds →
      acquire_agent_lock st now tid = (false, st)) ∧
    (∀ c, st.is_agent_working = false → st.is_cooldown = true →
      st.cooldown_start_time = some c → 0 < c → now - c > st.cooldown_seconds →
      acquire_agent_lock st now tid = (true, acquiredState st now tid)) ∧
    (∀ a, st.is_agent_working = true → st.is_cooldown = false →
      st.agent_start_time = some a → 0 < a → now - a < st.timeout_seconds →
      acquire_agent_lock st now tid = (false, st)) ∧
    (∀ a, st.is_agent_working = true → st.is_cooldown = false →
      st.agent_start_time = some a → 0 < a → now - a > st.timeout_seconds →
      acquire_agent_lock st now tid = (true, acquiredState st now tid)) ∧
    (st.is_agent_working = false → st.is_cooldown = false →
      acquire_agent_lock st now tid = (true, acquiredState st now tid)) := by
  refine ⟨?_, ?_, ?_, ?_, ?_⟩
  · intro c hw hc hcst hpos hlt
    simp only [acquire_agent_lock, hc, if_true]
    rw [if_neg]
    intro hcond
    rw [hcst] at hcond
    simp only [truthyTime, Option.getD_some] at hcond
    omega
  · intro c hw hc hcst hpos hgt
    simp only [acquire_agent_lock, hc, if_true]
    rw [if_pos]
    · simp [acquireWorkingCheck, hw, acquireFinal, acquiredState]
    · rw [hcst]
      simp only [truthyTime, Option.getD_some]
      constructor
      · simpa using (by omega : c ≠ 0)
      · omega
  · intro a hw hc hast hpos hlt
    simp only [acquire_agent_lock, hc, Bool.false_eq_true, if_false,
      acquireWorkingCheck, hw, if_true]
    rw [if_neg]
    intro hcond
    rw [hast] at hcond
    simp only [truthyTime, Option.getD_some] at hcond
    omega
  · intro a hw hc hast hpos hgt
    simp only [acquire_agent_lock, hc, Bool.false_eq_true, if_false,
      acquireWorkingCheck, hw, if_true]
    rw [if_pos]
    · simp [acquireFinal, acquiredState]
    · rw [hast]
      simp only [truthyTime, Option.getD_some]
      constructor
      · simpa using (by omega : a ≠ 0)
      · omega
  · intro hw hc
    simp [acquire_agent_lock, hc, acquireWorkingCheck, hw, acquireFinal, acquiredState]

/-- Witness for C1: from the initial (idle) state, acquiring at time 5 for task
"t1" succeeds and records the holder and the start time. -/
theorem acquire_agent_lock_spec_witness :
    acquire_agent_lock initLock 5 "t1" = (true, acquiredState initLock 5 "t1") :=
  (acquire_agent_lock_spec initLock 5 "t1").2.2.2.2 rfl rfl

/-- Working state that started at time 1 and is stale by time 1000
(elapsed 999 s, far beyond the 300 s timeout). -/
def staleWorkingState : AgentLockState :=
  { is_agent_working := true
    is_cooldown := false
    agent_start_time := some 1
    cooldown_start_time := none
    current_task_id := some ("t9")
    timeout_seconds := 300
    cooldown_seconds := 3 }

/-- C5 counterexample: at time 1000 the Working state that started at time 1 is
stale (elapsed 999 s exceeds the 300 s timeout), yet `get_status` still reports
`is_agent_working = true` and performs no expiry: the claim that `status()`
lazily expires stale states the way `acquire` does is false on the code. -/
theorem get_status_not_self_healing :
    1000 - 1 > staleWorkingState.timeout_seconds ∧
    (get_status staleWorkingState 1000).is_agent_working = true ∧
    (get_status staleWorkingState 1000).is_locked = true := by
  decide

/-- C5 amended: `is_agent_working()` lazily expires a stale Working state and a
stale Cooldown state using the same timeout rules as `acquire`, while
`get_status()` merely reports the stored flags without expiring them; only the
`is_agent_working` query is self-healing. -/
theorem lock_query_self_healing (st : AgentLockState) (now : Int) :
    (∀ a, st.is_agent_working = true → st.agent_start_time = some a → 0 < a →
      now - a > st.timeout_seconds →
      is_agent_working_query st now =
        (false, { st with is_agent_working := false, is_cooldown := false,
                          current_task_id := none })) ∧
    (∀ c, st.is_agent_working = false → st.is_cooldown = true →
      st.cooldown_start_time = some c → 0 < c → now - c > st.cooldown_seconds →
      is_agent_working_query st now =
        (false, { st with is_cooldown := false, cooldown_start_time := none,
                          current_task_id := none })) ∧
    ((get_status st now).is_agent_working = st.is_agent_working ∧
     (get_status st now).is_cooldown = st.is_cooldown ∧
     (get_status st now).is_locked = (st.is_agent_working || st.is_cooldown)) := by
  refine ⟨?_, ?_, by simp [get_status]⟩
  · intro a hw hast hpos hgt
    simp only [is_agent_working_query]
    rw [if_pos]
    rw [hast]
    simp only [truthyTime, Option.getD_some]
    refine ⟨hw, ?_, by omega⟩
    simpa using (by omega : a ≠ 0)
  · intro c hw hc hcst hpos hgt
    simp only [is_agent_working_query, hw]
    rw [if_neg, if_pos]
    · rw [hcst]
      simp only [truthyTime, Option.getD_some]
      refine ⟨hc, ?_, by omega⟩
      simpa using (by omega : c ≠ 0)
    · intro hcond
      exact absurd hcond.1 (by simp [hw])

/-- Witness for the amended C5: the stale Working state above is expired by the
`is_agent_working` query at time 1000. -/
theorem lock_query_self_healing_witness :
    is_agent_working_query staleWorkingState 1000 =
      (false,
        { staleWorkingState with
          is_agent_working := false, is_cooldown := false, current_task_id := none }) :=
  (lock_query_self_healing staleWorkingState 1000).1 1 rfl rfl (by decide) (by decide)

/-! Model of `src/task_processor.py`. -/

/-- Duration field of a Todoist task: an amount and a unit string
("minute", "hour", "day", or anything else). -/
structure TaskDuration where
  amount : Int
  unit : String
deriving Repr, DecidableEq

/-- Due field of a Todoist task.  `dateMoment` is the parsed instant of the
ISO `date` string, in minutes on an abstract clock (`none` models a missing or
unparseable date, which `handle_task_updated` treats as not overdue);
`dueString` is the human-readable `string` field used in summaries. -/
structure TaskDue where
  dateMoment : Option Int
  dueString : String
deriving Repr, DecidableEq

/-- Tracked fields of a task snapshot: the `important_fields` of
`analyze_task_changes` in `src/task_processor.py`. -/
structure TaskItem where
  content : String
  due : Option TaskDue
  duration : Option TaskDuration
  priority : Option Int
  labels : List String
  description : String
  project_id : Option String
  section_id : Option String
  checked : Bool
deriving Repr, DecidableEq

/-- Result of `analyze_task_changes` (the `change_details` dictionary, which no
claim concerns, is omitted). -/
structure ChangeAnalysis where
  has_changes : Bool
  fields_changed : List String
  change_summary : List String
  significant_changes : List String
deriving Repr, DecidableEq

/-- Priority display names used by `analyze_task_changes`
(`priority_names.get(v, f"Priority v")`; `str(None)` is "None"). -/
def priorityName : Option Int → String
  | some 1 => "Low"
  | some 2 => "Normal"
  | some 3 => "High"
  | some 4 => "Urgent"
  | some n => "Priority " ++ toString n
  | none => "Priority None"

/-- Display text of a duration value. -/
def durationText (d : TaskDuration) : String :=
  toString d.amount ++ " " ++ d.unit

/-- Display text of an optional string (`str(None)` is "None"). -/
def optStr : Option String → String
  | none => "None"
  | some s => s

/-- Contribution of the `content` field: (summary lines, significant tags). -/
def contentChange (o n : String) : List String × List String :=
  if o ≠ n then (["Title changed: " ++ o ++ " -> " ++ n], ["title_changed"]) else ([], [])

/-- Contribution of the `due` field. -/
def dueChange (o n : Option TaskDue) : List String × List String :=
  if o ≠ n then
    match o, n with
    | none, some d => (["Due date added: " ++ d.dueString], ["due_date_added"])
    | some _, none => (["Due date removed"], ["due_date_removed"])
    | some od, some nd =>
        (["Due date changed: " ++ od.dueString ++ " -> " ++ nd.dueString], ["due_date_changed"])
    | none, none => ([], [])
  else ([], [])

/-- Contribution of the `duration` field. -/
def durationChange (o n : Option TaskDuration) : List String × List String :=
  if o ≠ n then
    match o, n with
    | none, some d => (["Duration added: " ++ durationText d], ["duration_added"])
    | some _, none => (["Duration removed"], ["duration_removed"])
    | some od, some nd =>
        (["Duration changed: " ++ durationText od ++ " -> " ++ durationText nd],
         ["duration_changed"])
    | none, none => ([], [])
  else ([], [])

/-- Contribution of the `priority` field. -/
def priorityChange (o n : Option Int) : List String × List String :=
  if o ≠ n then
    (["Priority changed: " ++ priorityName o ++ " -> " ++ priorityName n], ["priority_changed"])
  else ([], [])

/-- Contribution of the `labels` field: label changes are computed as set
difference (added and removed labels), not raw inequality. -/
def labelsChange (o n : List String) : List String × List String :=
  if o ≠ n then
    let added := n.filter fun l => decide (l ∉ o)
    let removed := o.filter fun l => decide (l ∉ n)
    ((if added ≠ [] then ["Labels added: " ++ String.intercalate (", ") added] else []) ++
     (if removed ≠ [] then ["Labels removed: " ++ String.intercalate (", ") removed] else []),
     if added ≠ [] ∨ removed ≠ [] then ["labels_changed"] else [])
  else ([], [])

/-- Contribution of the `description` field. -/
def descriptionChange (o n : String) : List String × List String :=
  if o ≠ n then
    (if o = "" ∧ n ≠ "" then ["Description added"]
     else if o ≠ "" ∧ n = "" then ["Description removed"]
     else ["Description modified"], ["description_changed"])
  else ([], [])

/-- Contribution of the `project_id` field (generic summary, never significant). -/
def projectChange (o n : Option String) : List String × List String :=
  if o ≠ n then (["Project changed: " ++ optStr o ++ " -> " ++ optStr n], []) else ([], [])

/-- Contribution of the `section_id` field (generic summary, never significant). -/
def sectionChange (o n : Option String) : List String × List String :=
  if o ≠ n then (["Section changed: " ++ optStr o ++ " -> " ++ optStr n], []) else ([], [])

/-- Contribution of the `checked` field. -/
def checkedChange (o n : Bool) : List String × List String :=
  if o ≠ n then
    if n = true ∧ o = false then (["Task completed"], ["task_completed"])
    else if n = false ∧ o = true then (["Task reopened"], ["task_reopened"])
    else ([], [])
  else ([], [])

/-- `analyze_task_changes(current_data, old_data)`: walks the tracked fields in
dictionary order, collecting changed field names, summary lines and significant
tags. -/
def analyze_task_changes (cur old : TaskItem) : ChangeAnalysis :=
  let fields_changed :=
    (if old.content ≠ cur.content then ["content"] else []) ++
    (if old.due ≠ cur.due then ["due"] else []) ++
    (if old.duration ≠ cur.duration then ["duration"] else []) ++
    (if old.priority ≠ cur.priority then ["priority"] else []) ++
    (if old.labels ≠ cur.labels then ["labels"] else []) ++
    (if old.description ≠ cur.description then ["description"] else []) ++
    (if old.project_id ≠ cur.project_id then ["project_id"] else []) ++
    (if old.section_id ≠ cur.section_id then ["section_id"] else []) ++
    (if old.checked ≠ cur.checked then ["checked"] else [])
  { has_changes := !fields_changed.isEmpty
    fields_changed := fields_changed
    change_summary :=
      (contentChange old.content cur.content).1 ++
      (dueChange old.due cur.due).1 ++
      (durationChange old.duration cur.duration).1 ++
      (priorityChange old.priority cur.priority).1 ++
      (labelsChange old.labels cur.labels).1 ++
      (descriptionChange old.description cur.description).1 ++
      (projectChange old.project_id cur.project_id).1 ++
      (sectionChange old.section_id cur.section_id).1 ++
      (checkedChange old.checked cur.checked).1
    significant_changes :=
      (contentChange old.content cur.content).2 ++
      (dueChange old.due cur.due).2 ++
      (durationChange old.duration cur.duration).2 ++
      (priorityChange old.priority cur.priority).2 ++
      (labelsChange old.labels cur.labels).2 ++
      (descriptionChange old.description cur.description).2 ++
      (projectChange old.project_id cur.project_id).2 ++
      (sectionChange old.section_id cur.section_id).2 ++
      (checkedChange old.checked cur.checked).2 }

lemma labelsChange_of_perm (o n : List String) (h : o.Perm n) :
    labelsChange o n = ([], if o ≠ n then [] else []) := by
  have hadded : (n.filter fun l => decide (l ∉ o)) = [] := by
    rw [List.filter_eq_nil_iff]
    intro a ha
    simpa using (h.mem_iff.mpr ha)
  have hremoved : (o.filter fun l => decide (l ∉ n)) = [] := by
    rw [List.filter_eq_nil_iff]
    intro a ha
    simpa using (h.mem_iff.mp ha)
  unfold labelsChange
  split_ifs with hne
  · simp only [hadded, hremoved]
    simp
  · simp

/-- C9: for snapshots that differ only in the order of their labels list
(a permutation, all other tracked fields equal), the change analysis records
the change but yields no `labels_changed` tag and an empty human-readable
summary: label changes are computed as set difference, not raw inequality. -/
theorem label_reorder_not_significant (cur old : TaskItem)
    (hne : old.labels ≠ cur.labels)
    (hperm : old.labels.Perm cur.labels)
    (hc : old.content = cur.content) (hd : old.due = cur.due)
    (hdur : old.duration = cur.duration) (hp : old.priority = cur.priority)
    (hdesc : old.description = cur.description) (hproj : old.project_id = cur.project_id)
    (hsec : old.section_id = cur.section_id) (hch : old.checked = cur.checked) :
    "labels_changed" ∉ (analyze_task_changes cur old).significant_changes ∧
    (analyze_task_changes cur old).change_summary = [] ∧
    (analyze_task_changes cur old).has_changes = true := by
  have hl := labelsChange_of_perm old.labels cur.labels hperm
  refine ⟨?_, ?_, ?_⟩
  · simp [analyze_task_changes, hl, hc, hd, hdur, hp, hdesc, hproj, hsec, hch,
      contentChange, dueChange, durationChange, priorityChange, descriptionChange,
      projectChange, sectionChange, checkedChange]
  · simp [analyze_task_changes, hl, hc, hd, hdur, hp, hdesc, hproj, hsec, hch,
      contentChange, dueChange, durationChange, priorityChange, descriptionChange,
      projectChange, sectionChange, checkedChange]
  · simp [analyze_task_changes, hc, hd, hdur, hp, hdesc, hproj, hsec, hch, hne]

/-- Witness for C9: reordering the labels ["a", "b"] to ["b", "a"] yields no
labels tag and an empty summary. -/
theorem label_reorder_not_significant_witness :
    "labels_changed" ∉
      (analyze_task_changes
        { content := "t", due := none, duration := none, priority := some 1,
          labels := ["b", "a"], description := "", project_id := none,
          section_id := none, checked := false }
        { content := "t", due := none, duration := none, priority := some 1,
          labels := ["a", "b"], description := "", project_id := none,
          section_id := none, checked := false }).significant_changes ∧
    (analyze_task_changes
        { content := "t", due := none, duration := none, priority := some 1,
          labels := ["b", "a"], description := "", project_id := none,
          section_id := none, checked := false }
        { content := "t", due := none, duration := none, priority := some 1,
          labels := ["a", "b"], description := "", project_id := none,
          section_id := none, checked := false }).change_summary = [] ∧
    (analyze_task_changes
        { content := "t", due := none, duration := none, priority := some 1,
          labels := ["b", "a"], description := "", project_id := none,
          section_id := none, checked := false }
        { content := "t", due := none, duration := none, priority := some 1,
          labels := ["a", "b"], description := "", project_id := none,
          section_id := none, checked := false }).has_changes = true :=
  label_reorder_not_significant _ _ (by decide) (by decide)
    rfl rfl rfl rfl rfl rfl rfl rfl

/-- Duration of a task in minutes, as computed in `handle_task_updated`
(lines 454-469): minutes pass through, hours and days are converted, any other
unit contributes zero. -/
def durationMinutes (d : TaskDuration) : Int :=
  if d.unit = "minute" then d.amount
  else if d.unit = "hour" then d.amount * 60
  else if d.unit = "day" then d.amount * 24 * 60
  else 0

/-- Task end time: the due moment plus the duration in minutes (the due moment
itself when there is no duration). -/
def taskEndTime (dueMoment : Int) (dur : Option TaskDuration) : Int :=
  match dur with
  | none => dueMoment
  | some d => dueMoment + durationMinutes d

/-- Overdue test of `handle_task_updated` (lines 420-482): a task is overdue
when its due field carries a parseable date whose end time (due plus duration)
is strictly before now; a missing or unparseable due date is never overdue. -/
def overdueCheck (due : Option TaskDue) (dur : Option TaskDuration) (now : Int) : Bool :=
  match due with
  | none => false
  | some d =>
    match d.dateMoment with
    | none => false
    | some m => decide (taskEndTime m dur < now)

/-- Reschedule decision of `handle_task_updated` (lines 397-482): reschedule
when the priority changed, otherwise when the current task is overdue. -/
def updatedShouldReschedule (cur old : TaskItem) (now : Int) : Bool :=
  if ("priority_changed") ∈ (analyze_task_changes cur old).significant_changes then true
  else overdueCheck cur.due cur.duration now

lemma priority_changed_not_mem_dueChange (o n : Option TaskDue) :
    "priority_changed" ∉ (dueChange o n).2 := by
  unfold dueChange
  rcases o with _ | od <;> rcases n with _ | nd <;> split_ifs <;> simp

lemma priority_changed_not_mem_durationChange (o n : Option TaskDuration) :
    "priority_changed" ∉ (durationChange o n).2 := by
  unfold durationChange
  rcases o with _ | od <;> rcases n with _ | nd <;> split_ifs <;> simp

lemma priority_changed_not_mem_labelsChange (o n : List String) :
    "priority_changed" ∉ (labelsChange o n).2 := by
  unfold labelsChange
  split_ifs <;> simp

lemma priority_changed_not_mem_checkedChange (o n : Bool) :
    "priority_changed" ∉ (checkedChange o n).2 := by
  unfold checkedChange
  split_ifs <;> simp

lemma priority_changed_mem_significant (cur old : TaskItem) :
    "priority_changed" ∈ (analyze_task_changes cur old).significant_changes ↔
      old.priority ≠ cur.priority := by
  simp only [analyze_task_changes, List.mem_append]
  constructor
  · rintro ((((((((h | h) | h) | h) | h) | h) | h) | h) | h)
    · revert h
      unfold contentChange
      split_ifs <;> simp
    · exact absurd h (priority_changed_not_mem_dueChange _ _)
    · exact absurd h (priority_changed_not_mem_durationChange _ _)
    · revert h
      unfold priorityChange
      split_ifs with hp <;> simp_all
    · exact absurd h (priority_changed_not_mem_labelsChange _ _)
    · revert h
      unfold descriptionChange
      split_ifs <;> simp
    · revert h
      unfold projectChange
      split_ifs <;> simp
    · revert h
      unfold sectionChange
      split_ifs <;> simp
    · exact absurd h (priority_changed_not_mem_checkedChange _ _)
  · intro hp
    refine Or.inl (Or.inl (Or.inl (Or.inl (Or.inl (Or.inr ?_)))))
    unfold priorityChange
    simp [hp]

/-- C2: for an update with a prior snapshot and at least one changed field, a
reschedule is attempted if and only if the priority field changed or the task
is overdue, where overdue means due moment plus duration strictly before now
(the bare due moment when there is no duration); otherwise no reschedule
happens. -/
theorem updated_reschedule_iff (cur old : TaskItem) (now : Int)
    (hch : (analyze_task_changes cur old).has_changes = true) :
    (updatedShouldReschedule cur old now = true ↔
      (old.priority ≠ cur.priority ∨
        ∃ d m, cur.due = some d ∧ d.dateMoment = some m ∧
          taskEndTime m cur.duration < now)) ∧
    (∀ m, taskEndTime m none = m) := by
  constructor
  · unfold updatedShouldReschedule
    split_ifs with hmem
    · simp only [true_iff]
      exact Or.inl ((priority_changed_mem_significant cur old).mp hmem)
    · rw [priority_changed_mem_significant] at hmem
      simp only [hmem, false_or]
      unfold overdueCheck
      rcases hdue : cur.due with _ | d
      · simp
      · rcases hdm : d.dateMoment with _ | m
        · simp [hdm]
        · simp only [hdm, decide_eq_true_eq]
          constructor
          · intro h
            exact ⟨d, m, rfl, hdm, h⟩
          · rintro ⟨d2, m2, hd2, hm2, hlt⟩
            cases hd2
            rw [hdm] at hm2
            cases hm2
            exact hlt
  · intro m
    rfl

/-- Witness for C2: a task whose only change is a bumped priority is
rescheduled even though it is not overdue. -/
theorem updated_reschedule_iff_witness :
    (analyze_task_changes
        { content := "t", due := none, duration := none, priority := some 4,
          labels := [], description := "", project_id := none,
          section_id := none, checked := false }
        { content := "t", due := none, duration := none, priority := some 1,
          labels := [], description := "", project_id := none,
          section_id := none, checked := false }).has_changes = true ∧
    (updatedShouldReschedule
        { content := "t", due := none, duration := none, priority := some 4,
          labels := [], description := "", project_id := none,
          section_id := none, checked := false }
        { content := "t", due := none, duration := none, priority := some 1,
          labels := [], description := "", project_id := none,
          section_id := none, checked := false } 100 = true) := by
  refine ⟨by decide, ?_⟩
  refine ((updated_reschedule_iff
    { content := "t", due := none, duration := none, priority := some 4,
      labels := [], description := "", project_id := none,
      section_id := none, checked := false }
    { content := "t", due := none, duration := none, priority := some 1,
      labels := [], description := "", project_id := none,
      section_id := none, checked := false } 100 (by decide)).1.mpr ?_)
  exact Or.inl (by decide)

/-- Settings entry for one todo list under `auto_scheduling_priority`: the old
bare-integer format, the new dictionary format (with optional keys), or an
absent entry (which behaves like an empty dictionary). -/
inductive ListSetting where
  | oldFormat (n : Int)
  | newFormat (min_priority : Option Int) (enabled : Option Bool)
  | absent
deriving Repr, DecidableEq

/-- Effective priority for display: `1 if priority is None else priority`. -/
def effectivePriority (p : Option Int) : Int := p.getD 1

/-- API priority display names (`api_priority_names.get`). -/
def apiPriorityName (n : Int) : String :=
  if n = 4 then "Urgent (P1)"
  else if n = 3 then "High (P2)"
  else if n = 2 then "Normal (P3)"
  else if n = 1 then "Low (P4)"
  else "API Priority " ++ toString n

/-- Message returned by the `except` clause of `should_auto_schedule_by_priority`. -/
def priorityFailureMessage (priority : Option Int) (e : String) : String :=
  "Priority check failed for priority " ++ toString (effectivePriority priority) ++
  ", defaulting to auto-schedule (error: " ++ e ++ ")"

/-- `should_auto_schedule_by_priority(task_data, todos_list)` (lines 69-122 of
`src/task_processor.py`).  The two external effects are passed in explicitly:
`checker` is the outcome of `config_manager.should_auto_schedule_task`
(`Except.error` models a raised exception) and `loadSettings` is the outcome of
`config_manager.load_settings` as a per-list lookup.  Any exception inside the
`try` block lands in the `except` clause, which defaults to allowing. -/
def should_auto_schedule_by_priority (priority : Option Int) (todos_list : String)
    (checker : Except String Bool)
    (loadSettings : Except String (String → ListSetting)) : Bool × String :=
  match checker with
  | .error e => (true, priorityFailureMessage priority e)
  | .ok true =>
      (true, "Priority " ++ toString (effectivePriority priority) ++
        " meets auto-scheduling threshold for " ++ todos_list ++ " list")
  | .ok false =>
      match loadSettings with
      | .error e => (true, priorityFailureMessage priority e)
      | .ok settings =>
          let threshold : Int :=
            match settings todos_list with
            | .oldFormat old => 5 - old
            | .newFormat mp _ => mp.getD 1
            | .absent => 1
          let is_enabled : Bool :=
            match settings todos_list with
            | .oldFormat _ => true
            | .newFormat _ en => en.getD true
            | .absent => true
          if is_enabled = false then
            (false, "Auto-scheduling is disabled for " ++ todos_list ++ " list")
          else
            (false, "Priority " ++ toString (effectivePriority priority) ++ " (" ++
              apiPriorityName (effectivePriority priority) ++
              ") below auto-scheduling threshold (requires " ++
              apiPriorityName threshold ++ " or higher for " ++ todos_list ++ " list)")

/-- C10: if the priority-threshold check itself raises,
`should_auto_schedule_by_priority` returns True (default-allow) together with a
reason string noting the failure, so the task is sent to the planner rather
than skipped. -/
theorem priority_check_failure_defaults_to_allow (priority : Option Int)
    (todos_list : String) (e : String)
    (loadSettings : Except String (String → ListSetting)) :
    should_auto_schedule_by_priority priority todos_list (.error e) loadSettings =
      (true, priorityFailureMessage priority e) := rfl

/-- Outcomes of the five event handlers for a given event, as seen by the
router: a returned message (`Except.ok`) or a raised exception (`Except.error`). -/
structure EventHandlers where
  added : Except String String
  updated : Except String String
  completed : Except String String
  deleted : Except String String
  calendarEnd : Except String String

/-- `handle_unknown_event` (lines 723-729): always returns a message. -/
def handle_unknown_event (event_name : String) : String :=
  "Unknown event type " ++ event_name ++ " - no handler implemented"

/-- Dispatch chain of `router` (lines 283-294). -/
def dispatchEvent (hs : EventHandlers) (event_name : String) : Except String String :=
  if event_name = "item:added" then hs.added
  else if event_name = "item:updated" then hs.updated
  else if event_name = "item:completed" then hs.completed
  else if event_name = "item:deleted" then hs.deleted
  else if event_name = "calendar:event_end" then hs.calendarEnd
  else .ok (handle_unknown_event event_name)

/-- Structured result dictionary returned by `router`. -/
structure RouterResult where
  status : String
  event_name : Option String
  result : Option String
  errorMsg : Option String
deriving Repr, DecidableEq

/-- Python truthiness of an optional string: `None` and the empty string are falsy. -/
def truthyStr : Option String → Bool
  | none => false
  | some s => decide (s ≠ "")

/-- `router(task_data)` (lines 248-315), abstracted over the handler outcomes:
a falsy `event_name` yields a structured error; a handler exception is caught
and surfaced as a structured error; a handler message yields a structured
success. -/
def router (event_name : Option String) (hs : EventHandlers) : RouterResult :=
  if truthyStr event_name = false then
    { status := "error", event_name := none, result := none,
      errorMsg := some ("Missing event_name in task_data") }
  else
    match dispatchEvent hs (event_name.getD ("")) with
    | .ok r =>
        { status := "success", event_name := event_name, result := some r, errorMsg := none }
    | .error e =>
        { status := "error", event_name := event_name, result := none, errorMsg := some e }

/-- C7: the router always returns exactly one structured outcome — its status
is "success" or "error"; a missing event identifier yields a structured error;
a handler exception is caught and surfaced as a structured error rather than
propagating; any other event yields a structured success carrying the handler
outcome message. -/
theorem router_structured_outcome (event_name : Option String) (hs : EventHandlers) :
    ((router event_name hs).status = "success" ∨ (router event_name hs).status = "error") ∧
    (truthyStr event_name = false →
      router event_name hs =
        { status := "error", event_name := none, result := none,
          errorMsg := some ("Missing event_name in task_data") }) ∧
    (∀ en r, event_name = some en → en ≠ "" → dispatchEvent hs en = .ok r →
      router event_name hs =
        { status := "success", event_name := some en, result := some r, errorMsg := none }) ∧
    (∀ en e, event_name = some en → en ≠ "" → dispatchEvent hs en = .error e →
      router event_name hs =
        { status := "error", event_name := some en, result := none, errorMsg := some e }) := by
  refine ⟨?_, ?_, ?_, ?_⟩
  · unfold router
    split_ifs
    · right
      rfl
    · rcases hdi : dispatchEvent hs (event_name.getD ("")) with e | r <;> simp [hdi]
  · intro hfalsy
    unfold router
    rw [if_pos hfalsy]
  · intro en r hen hne hok
    unfold router
    rw [if_neg, hen]
    · simp [Option.getD_some, hok]
    · rw [hen]
      simpa [truthyStr] using hne
  · intro en e hen hne herr
    unfold router
    rw [if_neg, hen]
    · simp [Option.getD_some, herr]
    · rw [hen]
      simpa [truthyStr] using hne

/-- Witness for C7: a handler that raises on an update event is surfaced as a
structured error result. -/
theorem router_structured_outcome_witness :
    router (some ("item:updated"))
        { added := .ok ("a"), updated := .error ("boom"), completed := .ok ("c"),
          deleted := .ok ("d"), calendarEnd := .ok ("e") } =
      { status := "error", event_name := some ("item:updated"), result := none,
        errorMsg := some ("boom") } :=
  (router_structured_outcome (some ("item:updated"))
      { added := .ok ("a"), updated := .error ("boom"), completed := .ok ("c"),
        deleted := .ok ("d"), calendarEnd := .ok ("e") }).2.2.2
    ("item:updated") ("boom") rfl (by decide) rfl

/-- Outcome of the reschedule section of `handle_task_updated`. -/
inductive UpdateOutcome where
  | blocked (msg : String)
  | skippedBelowThreshold (msg : String)
  | rescheduled (msg : String)
deriving Repr, DecidableEq

/-- Reschedule section of `handle_task_updated` (lines 484-528), for a task
whose project id resolves to a todos list.  Mirrors the control flow: the
`agent_working` context manager acquires the guard first (`__aenter__`, raising
when busy, which the surrounding `try` turns into a failure message); the
priority-threshold gate is evaluated inside the `with` block; `__aexit__`
releases the guard on every exit.  Returns the outcome and the trace of guard
states (initial, after acquire, after release). -/
def updatedRescheduleSection (g : AgentLockState) (tAcq tRel : Int) (tid : String)
    (gatePasses : Bool) (gateReason : String) (agentResult : String) :
    UpdateOutcome × List AgentLockState :=
  match acquire_agent_lock g tAcq tid with
  | (false, g1) =>
      (.blocked ("Task changes detected but rescheduling failed: Agent is busy, cannot process task "
        ++ tid), [g, g1])
  | (true, g1) =>
      if gatePasses = false then
        (.skippedBelowThreshold ("Task update processed but rescheduling skipped - " ++ gateReason),
         [g, g1, release_agent_lock g1 tRel tid])
      else
        (.rescheduled ("Task updated and rescheduled. Agent result: " ++ agentResult),
         [g, g1, release_agent_lock g1 tRel tid])

lemma acquire_from_idle (g : AgentLockState) (now : Int) (tid : String)
    (hw : g.is_agent_working = false) (hc : g.is_cooldown = false) :
    acquire_agent_lock g now tid = (true, acquiredState g now tid) := by
  simp [acquire_agent_lock, hc, acquireWorkingCheck, hw, acquireFinal, acquiredState]

/-- C6 counterexample: starting from the idle guard, an update warranting a
reschedule whose task is below the priority threshold still acquires the guard
(the intermediate state is Working) and leaves it in Cooldown — not unchanged —
because the gate is re-applied only inside the `agent_working` block. -/
theorem updated_gate_after_acquire_cex :
    (updatedRescheduleSection initLock 10 11 "t1" false ("below threshold") ("res")).2 =
      [initLock, acquiredState initLock 10 "t1",
        release_agent_lock (acquiredState initLock 10 "t1") 11 "t1"] ∧
    (acquiredState initLock 10 "t1").is_agent_working = true ∧
    (release_agent_lock (acquiredState initLock 10 "t1") 11 "t1").is_cooldown = true ∧
    release_agent_lock (acquiredState initLock 10 "t1") 11 "t1" ≠ initLock := by
  decide

/-- C6 amended: in `handle_task_updated` the priority-threshold gate is
re-applied only after the guard has been acquired; a below-threshold update
therefore acquires the guard, skips the planner, and releases the guard,
passing through Working and ending in Cooldown rather than leaving the guard
untouched. -/
theorem updated_gate_after_acquire (g : AgentLockState) (tAcq tRel : Int)
    (tid gateReason agentResult : String)
    (hw : g.is_agent_working = false) (hc : g.is_cooldown = false) :
    updatedRescheduleSection g tAcq tRel tid false gateReason agentResult =
      (.skippedBelowThreshold ("Task update processed but rescheduling skipped - " ++ gateReason),
        [g, acquiredState g tAcq tid,
          release_agent_lock (acquiredState g tAcq tid) tRel tid]) ∧
    (acquiredState g tAcq tid).is_agent_working = true ∧
    (release_agent_lock (acquiredState g tAcq tid) tRel tid).is_cooldown = true := by
  refine ⟨?_, rfl, ?_⟩
  · unfold updatedRescheduleSection
    rw [acquire_from_idle g tAcq tid hw hc]
    simp
  · simp [release_agent_lock, acquiredState]

/-- Witness for the amended C6: concrete below-threshold update from the idle
guard. -/
theorem updated_gate_after_acquire_witness :
    updatedRescheduleSection initLock 20 21 "t2" false ("below") ("res") =
      (.skippedBelowThreshold ("Task update processed but rescheduling skipped - below"),
        [initLock, acquiredState initLock 20 "t2",
          release_agent_lock (acquiredState initLock 20 "t2") 21 "t2"]) ∧
    (acquiredState initLock 20 "t2").is_agent_working = true ∧
    (release_agent_lock (acquiredState initLock 20 "t2") 21 "t2").is_cooldown = true :=
  updated_gate_after_acquire initLock 20 21 "t2" ("below") ("res") rfl rfl

/-! Model of `get_free_intervals` (`src/google_calendar.py` lines 407-428):
sort the busy intervals, merge overlapping or touching ones, then subtract the
merged list from the queried range. -/

/-- Half-open time interval (start, end). -/
abbrev Iv := Int × Int

/-- Membership of an instant in a half-open interval. -/
def inIv (t : Int) (iv : Iv) : Prop := iv.1 ≤ t ∧ t < iv.2

/-- Two intervals share no instant. -/
def ivDisjoint (x y : Iv) : Prop := ∀ t : Int, inIv t x → ¬ inIv t y

/-- Python lexicographic tuple order used by `busy_intervals.sort()`. -/
def ivLex (x y : Iv) : Prop := x.1 < y.1 ∨ (x.1 = y.1 ∧ x.2 ≤ y.2)

instance : DecidableRel ivLex := fun x y => by
  unfold ivLex
  infer_instance

instance : IsTotal Iv ivLex :=
  ⟨fun x y => by
    unfold ivLex
    omega⟩

instance : IsTrans Iv ivLex :=
  ⟨fun x y z hxy hyz => by
    unfold ivLex at *
    omega⟩

/-- `busy_intervals.sort()`. -/
def sortBusy (l : List Iv) : List Iv := List.insertionSort ivLex l

/-- Merge loop of `get_free_intervals` (lines 410-419), with the last merged
interval as accumulator: an interval starting at or before the end of the
accumulator extends it (end becomes the max of the two ends), otherwise the
accumulator is emitted and the interval becomes the new accumulator. -/
def mergeGo (cur : Iv) : List Iv → List Iv
  | [] => [cur]
  | i :: rest =>
      if i.1 ≤ cur.2 then mergeGo (cur.1, max cur.2 i.2) rest
      else cur :: mergeGo i rest

/-- Merged busy intervals (`merged` of lines 410-419). -/
def mergeIntervals : List Iv → List Iv
  | [] => []
  | i :: rest => mergeGo i rest

/-- Subtraction loop of `get_free_intervals` (lines 420-427): walk the merged
busy intervals in order, emit the gap before each busy interval when positive,
advance the cursor to the max of cursor and busy end, and finally emit the gap
from the cursor to the range end when positive. -/
def subtractBusy : Int → Int → List Iv → List Iv
  | cur, e, [] => if cur < e then [(cur, e)] else []
  | cur, e, b :: rest =>
      (if cur < b.1 then [(cur, b.1)] else []) ++ subtractBusy (max cur b.2) e rest

/-- `get_free_intervals(start, end)` applied to the busy intervals gathered
from the calendar accounts. -/
def get_free_intervals (s e : Int) (busy : List Iv) : List Iv :=
  subtractBusy s e (mergeIntervals (sortBusy busy))

lemma subtract_cover (bs : List Iv) :
    ∀ cur e t : Int, cur ≤ t → t < e →
      (∃ f ∈ subtractBusy cur e bs, inIv t f) ∨ (∃ b ∈ bs, inIv t b) := by
  induction bs with
  | nil =>
      intro cur e t h1 h2
      left
      refine ⟨(cur, e), ?_, h1, h2⟩
      simp [subtractBusy, lt_of_le_of_lt h1 h2]
  | cons b rest ih =>
      intro cur e t h1 h2
      by_cases hb1 : t < b.1
      · left
        refine ⟨(cur, b.1), ?_, h1, hb1⟩
        simp [subtractBusy, lt_of_le_of_lt h1 hb1]
      · push_neg at hb1
        by_cases hb2 : t < b.2
        · exact Or.inr ⟨b, List.mem_cons_self b rest, hb1, hb2⟩
        · push_neg at hb2
          rcases ih (max cur b.2) e t (by omega) h2 with ⟨f, hf, hin⟩ | ⟨b2, hb2m, hin⟩
          · left
            refine ⟨f, ?_, hin⟩
            simp only [subtractBusy, List.mem_append]
            exact Or.inr hf
          · exact Or.inr ⟨b2, List.mem_cons_of_mem b hb2m, hin⟩

/-- Comparison of interval starts. -/
def ivLeFst (x y : Iv) : Prop := x.1 ≤ y.1

/-- Strict separation: the first interval ends before the second starts. -/
def ivSep (x y : Iv) : Prop := x.2 < y.1

/-- Free-interval order: the first ends at or before the second starts. -/
def ivOrd (x y : Iv) : Prop := x.2 ≤ y.1

lemma mergeGo_fst_ge (rest : List Iv) :
    ∀ cur : Iv, (∀ j ∈ rest, cur.1 ≤ j.1) → rest.Pairwise ivLeFst →
      ∀ x ∈ mergeGo cur rest, cur.1 ≤ x.1 := by
  induction rest with
  | nil =>
      intro cur _ _ x hx
      simp only [mergeGo, List.mem_singleton] at hx
      exact hx ▸ le_refl _
  | cons i rest ih =>
      intro cur hsorted hpair x hx
      simp only [mergeGo] at hx
      split_ifs at hx with hle
      · exact ih (cur.1, max cur.2 i.2)
          (fun j hj => hsorted j (List.mem_cons_of_mem i hj)) hpair.of_cons x hx
      · rcases List.mem_cons.mp hx with rfl | hx2
        · exact le_refl _
        · have hi : ∀ j ∈ rest, i.1 ≤ j.1 := fun j hj =>
            (List.pairwise_cons.mp hpair).1 j hj
          exact le_trans (hsorted i (List.mem_cons_self i rest))
            (ih i hi hpair.of_cons x hx2)

lemma mergeGo_wf (rest : List Iv) :
    ∀ cur : Iv, cur.1 ≤ cur.2 → (∀ i ∈ rest, i.1 ≤ i.2) →
      ∀ x ∈ mergeGo cur rest, x.1 ≤ x.2 := by
  induction rest with
  | nil =>
      intro cur hcur _ x hx
      simp only [mergeGo, List.mem_singleton] at hx
      exact hx ▸ hcur
  | cons i rest ih =>
      intro cur hcur hrest x hx
      simp only [mergeGo] at hx
      split_ifs at hx with hle
      · exact ih (cur.1, max cur.2 i.2) (by simp; omega)
          (fun j hj => hrest j (List.mem_cons_of_mem i hj)) x hx
      · rcases List.mem_cons.mp hx with rfl | hx2
        · exact hcur
        · exact ih i (hrest i (List.mem_cons_self i rest))
            (fun j hj => hrest j (List.mem_cons_of_mem i hj)) x hx2

lemma mergeGo_sep (rest : List Iv) :
    ∀ cur : Iv, (∀ j ∈ rest, cur.1 ≤ j.1) → rest.Pairwise ivLeFst →
      (mergeGo cur rest).Pairwise ivSep := by
  induction rest with
  | nil =>
      intro cur _ _
      simp [mergeGo]
  | cons i rest ih =>
      intro cur hsorted hpair
      simp only [mergeGo]
      split_ifs with hle
      · exact ih (cur.1, max cur.2 i.2)
          (fun j hj => hsorted j (List.mem_cons_of_mem i hj)) hpair.of_cons
      · push_neg at hle
        have hi : ∀ j ∈ rest, i.1 ≤ j.1 := fun j hj =>
          (List.pairwise_cons.mp hpair).1 j hj
        refine List.pairwise_cons.mpr ⟨?_, ih i hi hpair.of_cons⟩
        intro y hy
        exact lt_of_lt_of_le hle (mergeGo_fst_ge rest i hi hpair.of_cons y hy)

lemma merged_wf_sep (busy : List Iv) (hwf : ∀ b ∈ busy, b.1 ≤ b.2) :
    (∀ x ∈ mergeIntervals (sortBusy busy), x.1 ≤ x.2) ∧
    (mergeIntervals (sortBusy busy)).Pairwise ivSep := by
  have hperm : (sortBusy busy).Perm busy := List.perm_insertionSort ivLex busy
  have hwfs : ∀ b ∈ sortBusy busy, b.1 ≤ b.2 := fun b hb => hwf b (hperm.mem_iff.mp hb)
  have hsorted : (sortBusy busy).Pairwise ivLeFst := by
    refine (List.sorted_insertionSort ivLex busy).imp ?_
    intro x y hxy
    unfold ivLex at hxy
    unfold ivLeFst
    omega
  rcases hsb : sortBusy busy with _ | ⟨i, rest⟩
  · simp [mergeIntervals]
  · rw [hsb] at hwfs hsorted
    have hhead : ∀ j ∈ rest, i.1 ≤ j.1 := fun j hj =>
      (List.pairwise_cons.mp hsorted).1 j hj
    constructor
    · exact mergeGo_wf rest i (hwfs i (List.mem_cons_self i rest))
        (fun j hj => hwfs j (List.mem_cons_of_mem i hj))
    · exact mergeGo_sep rest i hhead hsorted.of_cons

lemma subtract_ordered (bs : List Iv) (hwf : ∀ b ∈ bs, b.1 ≤ b.2) :
    ∀ cur e : Int,
      (∀ f ∈ subtractBusy cur e bs, cur ≤ f.1) ∧
      (subtractBusy cur e bs).Pairwise ivOrd := by
  induction bs with
  | nil =>
      intro cur e
      constructor
      · intro f hf
        simp only [subtractBusy] at hf
        split_ifs at hf with hce
        · simp only [List.mem_singleton] at hf
          exact hf ▸ le_refl _
        · simp at hf
      · simp only [subtractBusy]
        split_ifs <;> simp
  | cons b rest ih =>
      intro cur e
      have hwfr : ∀ x ∈ rest, x.1 ≤ x.2 := fun x hx => hwf x (List.mem_cons_of_mem b hx)
      have ihr := ih hwfr (max cur b.2) e
      constructor
      · intro f hf
        simp only [subtractBusy, List.mem_append] at hf
        rcases hf with hf | hf
        · split_ifs at hf with hcb
          · simp only [List.mem_singleton] at hf
            exact hf ▸ le_refl _
          · simp at hf
        · exact le_trans (le_max_left cur b.2) (ihr.1 f hf)
      · simp only [subtractBusy]
        rw [List.pairwise_append]
        refine ⟨?_, ihr.2, ?_⟩
        · split_ifs <;> simp
        · intro x hx y hy
          split_ifs at hx with hcb
          · simp only [List.mem_singleton] at hx
            subst hx
            unfold ivOrd
            have hb : b.1 ≤ b.2 := hwf b (List.mem_cons_self b rest)
            have := ihr.1 y hy
            simp only
            omega
          · simp at hx

lemma subtract_disjoint_busy (bs : List Iv) (hwf : ∀ b ∈ bs, b.1 ≤ b.2)
    (hsep : bs.Pairwise ivSep) :
    ∀ cur e : Int, ∀ f ∈ subtractBusy cur e bs, ∀ b ∈ bs, ivDisjoint f b := by
  induction bs with
  | nil =>
      intro cur e f _ b hb
      simp at hb
  | cons b rest ih =>
      intro cur e f hf b2 hb2
      have hwfr : ∀ x ∈ rest, x.1 ≤ x.2 := fun x hx => hwf x (List.mem_cons_of_mem b hx)
      simp only [subtractBusy, List.mem_append] at hf
      rcases hf with hf | hf
      · split_ifs at hf with hcb
        · simp only [List.mem_singleton] at hf
          subst hf
          rcases List.mem_cons.mp hb2 with rfl | hb2r
          · intro t ht hb
            unfold inIv at ht hb
            simp only at ht hb
            omega
          · intro t ht hb
            unfold inIv at ht hb
            have hs : b.2 < b2.1 := (List.pairwise_cons.mp hsep).1 b2 hb2r
            have hbwf : b.1 ≤ b.2 := hwf b (List.mem_cons_self b rest)
            simp only at ht hb
            omega
        · simp at hf
      · rcases List.mem_cons.mp hb2 with rfl | hb2r
        · intro t ht hb
          unfold inIv at ht hb
          have hfst2 := (subtract_ordered rest hwfr (max cur b2.2) e).1 f hf
          omega
        · exact ih hwfr hsep.of_cons (max cur b.2) e f hf b2 hb2r

lemma ivSep_disjoint (x y : Iv) (h : ivSep x y) : ivDisjoint x y := by
  intro t ht hy
  unfold inIv at ht hy
  unfold ivSep at h
  omega

lemma ivOrd_disjoint (x y : Iv) (h : ivOrd x y) : ivDisjoint x y := by
  intro t ht hy
  unfold inIv at ht hy
  unfold ivOrd at h
  omega

/-- C3: for every finite list of busy intervals (each with start at or before
end) and every queried range, the free intervals computed by subtracting the
merged busy intervals from the range, together with the merged busy intervals,
tile the queried range: every instant of the range lies in one of them (no
gaps), and the intervals of the combined list are pairwise disjoint (no
overlaps). -/
theorem free_intervals_tile (s e : Int) (busy : List Iv)
    (hwf : ∀ b ∈ busy, b.1 ≤ b.2) :
    (∀ t : Int, s ≤ t → t < e →
      ∃ iv ∈ get_free_intervals s e busy ++ mergeIntervals (sortBusy busy), inIv t iv) ∧
    (get_free_intervals s e busy ++ mergeIntervals (sortBusy busy)).Pairwise ivDisjoint := by
  obtain ⟨hmwf, hmsep⟩ := merged_wf_sep busy hwf
  constructor
  · intro t h1 h2
    rcases subtract_cover (mergeIntervals (sortBusy busy)) s e t h1 h2 with
      ⟨f, hf, hin⟩ | ⟨b, hb, hin⟩
    · exact ⟨f, List.mem_append_left _ hf, hin⟩
    · exact ⟨b, List.mem_append_right _ hb, hin⟩
  · rw [List.pairwise_append]
    refine ⟨?_, hmsep.imp fun h => ivSep_disjoint _ _ h, ?_⟩
    · exact ((subtract_ordered (mergeIntervals (sortBusy busy)) hmwf s e).2).imp
        fun h => ivOrd_disjoint _ _ h
    · intro f hf b hb
      exact subtract_disjoint_busy (mergeIntervals (sortBusy busy)) hmwf hmsep s e f hf b hb

/-- Witness for C3: busy intervals [1,3) and [2,5) in the range [0,10) merge to
[1,5), the free intervals are [0,1) and [5,10), and the tiling holds. -/
theorem free_intervals_tile_witness :
    (∀ b ∈ [((1 : Int), (3 : Int)), (2, 5)], b.1 ≤ b.2) ∧
    get_free_intervals 0 10 [((1 : Int), (3 : Int)), (2, 5)] = [(0, 1), (5, 10)] ∧
    mergeIntervals (sortBusy [((1 : Int), (3 : Int)), (2, 5)]) = [(1, 5)] ∧
    ((∀ t : Int, 0 ≤ t → t < 10 →
      ∃ iv ∈ get_free_intervals 0 10 [((1 : Int), (3 : Int)), (2, 5)] ++
        mergeIntervals (sortBusy [((1 : Int), (3 : Int)), (2, 5)]), inIv t iv) ∧
     (get_free_intervals 0 10 [((1 : Int), (3 : Int)), (2, 5)] ++
        mergeIntervals (sortBusy [((1 : Int), (3 : Int)), (2, 5)])).Pairwise ivDisjoint) :=
  ⟨by decide, by decide, by decide,
    free_intervals_tile 0 10 [((1 : Int), (3 : Int)), (2, 5)] (by decide)⟩

/-! Model of the Activity Hours filtering branch of
`get_filtered_free_intervals_for_list` (`src/google_calendar.py` lines
520-585).  Time is measured in microseconds since an epoch falling on a Monday
midnight, so day index `d` spans `[d * microsecondsPerDay, (d+1) *
microsecondsPerDay)` and weekday `d % 7` is 0 for Monday through 6 for Sunday.
The per-day policy maps a weekday to `none` (no Activity Hours that day) or to
the window offsets within the day parsed from the "HH:MM" strings. -/

/-- Microseconds in one day. -/
def microsecondsPerDay : Nat := 86400000000

/-- Day-splitting loop of the filtering branch (lines 540-583), with explicit
fuel bounding the number of day iterations: while the cursor is before the
interval end, cut the day segment at `23:59:59.999999` of the cursor's day,
intersect it with that weekday's window when one exists (max of starts, min of
ends), keep the intersection when it has positive length, and move the cursor
to the next midnight. -/
def filterDays (policy : Nat → Option (Nat × Nat)) :
    Nat → Nat → Nat → List (Nat × Nat)
  | 0, _, _ => []
  | fuel + 1, cur, e =>
      if cur < e then
        let ds := cur / microsecondsPerDay * microsecondsPerDay
        let dayEnd := ds + (microsecondsPerDay - 1)
        let segEnd := min e dayEnd
        let rest := filterDays policy fuel ((cur / microsecondsPerDay + 1) * microsecondsPerDay) e
        match policy (cur / microsecondsPerDay % 7) with
        | none => rest
        | some w =>
            let fs := max cur (ds + w.1)
            let fe := min segEnd (ds + w.2)
            (if fs < fe then [(fs, fe)] else []) ++ rest
      else []

/-- Activity Hours filtering of one free interval `[s, e)`: the loop above with
enough fuel to reach past the last day of the range. -/
def filterFreeInterval (policy : Nat → Option (Nat × Nat)) (s e : Nat) :
    List (Nat × Nat) :=
  filterDays policy (e / microsecondsPerDay + 1) s e

/-- Example policy of the C4 scenario: Monday 09:00-17:00 only. -/
def mondayWorkPolicy : Nat → Option (Nat × Nat) := fun d =>
  if d = 0 then some (32400000000, 61200000000) else none

lemma filterDays_mem (policy : Nat → Option (Nat × Nat)) (s : Nat) :
    ∀ fuel cur e : Nat, s ≤ cur →
      cur = max s (cur / microsecondsPerDay * microsecondsPerDay) →
      ∀ seg ∈ filterDays policy fuel cur e,
        seg.1 < seg.2 ∧ s ≤ seg.1 ∧ seg.2 ≤ e ∧
        ∃ w, policy (seg.1 / microsecondsPerDay % 7) = some w ∧
          seg.1 = max (max s (seg.1 / microsecondsPerDay * microsecondsPerDay))
            (seg.1 / microsecondsPerDay * microsecondsPerDay + w.1) ∧
          seg.2 = min (min e (seg.1 / microsecondsPerDay * microsecondsPerDay +
              microsecondsPerDay - 1))
            (seg.1 / microsecondsPerDay * microsecondsPerDay + w.2) := by
  intro fuel
  induction fuel with
  | zero =>
      intro cur e _ _ seg hseg
      simp [filterDays] at hseg
  | succ fuel ih =>
      intro cur e hscur hcur seg hseg
      simp only [filterDays] at hseg
      split_ifs at hseg with hce
      · have hnext1 : s ≤ (cur / microsecondsPerDay + 1) * microsecondsPerDay := by
          simp only [microsecondsPerDay] at *
          omega
        have hnext2 : (cur / microsecondsPerDay + 1) * microsecondsPerDay =
            max s ((cur / microsecondsPerDay + 1) * microsecondsPerDay /
              microsecondsPerDay * microsecondsPerDay) := by
          simp only [microsecondsPerDay] at *
          omega
        rcases hpol : policy (cur / microsecondsPerDay % 7) with _ | w
        · rw [hpol] at hseg
          exact ih _ e hnext1 hnext2 seg hseg
        · rw [hpol] at hseg
          simp only [List.mem_append] at hseg
          rcases hseg with hseg | hseg
          · split_ifs at hseg with hlt
            · simp only [List.mem_singleton] at hseg
              subst hseg
              have hdiv : (max cur (cur / microsecondsPerDay * microsecondsPerDay + w.1)) /
                  microsecondsPerDay = cur / microsecondsPerDay := by
                simp only [microsecondsPerDay] at *
                omega
              refine ⟨hlt, ?_, ?_, w, ?_, ?_, ?_⟩
              · simp only [microsecondsPerDay] at *
                omega
              · simp only [microsecondsPerDay] at *
                omega
              · simp only
                rw [hdiv, hpol]
              · simp only
                rw [hdiv]
                conv_lhs => rw [hcur]
                simp only [microsecondsPerDay] at *
                omega
              · simp only
                rw [hdiv]
                simp only [microsecondsPerDay] at *
                omega
            · simp at hseg
          · exact ih _ e hnext1 hnext2 seg hseg
      · simp at hseg

/-- C4: whenever the category's policy has at least one enabled weekday, the
Activity Hours filtering of a free interval emits only positive-length
segments, each lying inside one single day (no segment straddles two per-day
policies) on a weekday that has a window, and each equal to the intersection
of that day's portion of the interval with that weekday's window (days without
a window contribute nothing); and the free interval from Monday 07:00 to
Monday 20:00 under a Monday-09:00-17:00-only policy filters to exactly
Monday 09:00 to 17:00. -/
theorem activity_hours_filter (policy : Nat → Option (Nat × Nat)) (s e : Nat)
    (hEnabled : ∃ d, d < 7 ∧ policy d ≠ none) :
    (∀ seg ∈ filterFreeInterval policy s e,
      seg.1 < seg.2 ∧ s ≤ seg.1 ∧ seg.2 ≤ e ∧
      seg.1 / microsecondsPerDay = (seg.2 - 1) / microsecondsPerDay ∧
      ∃ w, policy (seg.1 / microsecondsPerDay % 7) = some w ∧
        seg.1 = max (max s (seg.1 / microsecondsPerDay * microsecondsPerDay))
          (seg.1 / microsecondsPerDay * microsecondsPerDay + w.1) ∧
        seg.2 = min (min e (seg.1 / microsecondsPerDay * microsecondsPerDay +
            microsecondsPerDay - 1))
          (seg.1 / microsecondsPerDay * microsecondsPerDay + w.2)) ∧
    filterFreeInterval mondayWorkPolicy 25200000000 72000000000 =
      [(32400000000, 61200000000)] := by
  constructor
  · intro seg hseg
    have hcur : s = max s (s / microsecondsPerDay * microsecondsPerDay) := by
      simp only [microsecondsPerDay]
      omega
    obtain ⟨h1, h2, h3, w, hw, hfs, hfe⟩ :=
      filterDays_mem policy s (e / microsecondsPerDay + 1) s e (le_refl s) hcur seg hseg
    refine ⟨h1, h2, h3, ?_, w, hw, hfs, hfe⟩
    simp only [microsecondsPerDay] at *
    omega
  · decide

/-- Witness for C4: the Monday scenario, with the enabled-weekday hypothesis
discharged at weekday 0. -/
theorem activity_hours_filter_witness :
    filterFreeInterval mondayWorkPolicy 25200000000 72000000000 =
      [(32400000000, 61200000000)] :=
  (activity_hours_filter mondayWorkPolicy 25200000000 72000000000
    ⟨0, by decide, by decide⟩).2

end TodosAgent
